import Mathlib

/-!
Shallow embedding of the nutrient lookup, aggregation and classification
logic of `src/app.py` (CKD + Diabetes Food Analyzer).

Modelling conventions:
* JSON/HTTP plumbing is abstracted into explicit provider functions
  (`String → SearchResponse` for the search endpoint, `Nat → DetailResponse`
  for the detail endpoint); the URL and api-key parameters of the Python
  code carry no logic and are dropped.
* Python dicts whose values mix strings and numbers (the per-food rows)
  are modelled as insertion-ordered association lists over a `Value` type;
  `dictInsert` reproduces Python dict assignment (replace in place when the
  key exists, append otherwise) and `List.lookup` reproduces key access.
* Python `None` amounts become `Value.null`; pandas turns them into NaN and
  `sum(skipna=True)` skips them, so `cellNum` maps them to a 0 contribution.
* Machine floats are modelled as exact rationals `ℚ`.
-/

namespace DietCKD

/-- A cell of a per-food row: Python dict values are strings (food name,
portion size), numbers (nutrient amounts) or `None` (missing amount). -/
inductive Value where
  | str : String → Value
  | num : ℚ → Value
  | null : Value
deriving DecidableEq, Repr

/-- Convert an optional amount (Python `n.get("amount")`) into a cell. -/
def Value.ofOpt : Option ℚ → Value
  | some q => .num q
  | none => .null

/-- A per-food row: an insertion-ordered dict from column name to cell,
as produced by `extract_nutrients` / `get_food_info` (a Python dict). -/
abbrev Reading := List (String × Value)

/-- Python dict assignment `d[k] = v`: replace the value in place when the
key is already present, append the pair otherwise. -/
def dictInsert (d : Reading) (k : String) (v : Value) : Reading :=
  if d.any (fun p => p.1 == k) then
    d.map (fun p => if p.1 == k then (k, v) else p)
  else
    d ++ [(k, v)]

/-- Python `d.update(d2)`: insert the pairs of `d2` into `d` in order. -/
def dictUpdate (d d2 : Reading) : Reading :=
  d2.foldl (fun acc p => dictInsert acc p.1 p.2) d

/-- One element of the search endpoint's `foods` list: `fdcId` and
`description` are the only fields `app.py` reads. -/
structure Candidate where
  fdcId : Nat
  description : String
deriving DecidableEq, Repr

/-- Response of the USDA search endpoint: HTTP status plus the optional
`foods` field of the JSON body (`none` models an absent key). -/
structure SearchResponse where
  status : Nat
  foods : Option (List Candidate)

/-- One element of the detail endpoint's `foodNutrients` list:
`n.get("nutrient", {}).get("id")` and `n.get("amount")`. -/
structure FoodNutrient where
  nutrientId : Option Nat
  amount : Option ℚ
deriving DecidableEq, Repr

/-- Body of the USDA detail endpoint response: the `foodNutrients` list and
the optional `servingSize` / `servingSizeUnit` fields. -/
structure FoodDetail where
  foodNutrients : List FoodNutrient
  servingSize : Option ℚ
  servingSizeUnit : Option String
deriving Repr

/-- Response of the USDA detail endpoint: HTTP status plus JSON body. -/
structure DetailResponse where
  status : Nat
  body : FoodDetail

/-- The two USDA endpoints `app.py` contacts, as pure functions. -/
structure Provider where
  search : String → SearchResponse
  detail : Nat → DetailResponse

/-- `NUTRIENT_IDS` of `app.py`: the fixed nutrient id → label table. -/
def NUTRIENT_IDS : List (Nat × String) :=
  [(1008, "Calories"),
   (1003, "Protein (g)"),
   (1004, "Total Fat (g)"),
   (1005, "Carbohydrates (g)"),
   (1093, "Sodium (mg)"),
   (1092, "Potassium (mg)"),
   (1091, "Phosphorus (mg)"),
   (1051, "Water (g)")]

/-- Dict membership + access on `NUTRIENT_IDS`: `some label` when the id is
in the table (Python `nutrient.get("id") in NUTRIENT_IDS`), else `none`. -/
def nutrientLabel (i : Nat) : Option String :=
  (NUTRIENT_IDS.find? (fun p => p.1 == i)).map (fun p => p.2)

/-- `search_foods` of `app.py`: returns the `foods` list of the body when
the status is 200 (defaulting to `[]` when the key is absent), `[]`
otherwise. The `pageSize`/`max_results` parameter only shapes the provider
response and carries no logic here. -/
def search_foods (provider : String → SearchResponse) (query : String) :
    List Candidate :=
  let res := provider query
  if res.status == 200 then res.foods.getD [] else []

/-- The `"Portion Size"` string of `extract_nutrients`:
`f"{portion} {unit}" if portion and unit else "100 g (default)"`.
Python truthiness makes a `0` serving size or `""` unit fall back to the
default. -/
def portionString (d : FoodDetail) : String :=
  match d.servingSize, d.servingSizeUnit with
  | some p, some u =>
      if p ≠ 0 ∧ u ≠ "" then toString p ++ " " ++ u else "100 g (default)"
  | _, _ => "100 g (default)"

/-- Loop body of `extract_nutrients`: keep the entry when its nutrient id is
in `NUTRIENT_IDS`, storing the raw amount under the canonical label. -/
def insertNutrient (result : Reading) (n : FoodNutrient) : Reading :=
  match n.nutrientId with
  | some i =>
      match nutrientLabel i with
      | some label => dictInsert result label (Value.ofOpt n.amount)
      | none => result
  | none => result

/-- `extract_nutrients` of `app.py`: `{}` on a non-200 status, otherwise the
dict seeded with `"Portion Size"` and filled from the nutrient list. -/
def extract_nutrients (detailProvider : Nat → DetailResponse) (fdcId : Nat) :
    Reading :=
  let res := detailProvider fdcId
  if res.status == 200 then
    res.body.foodNutrients.foldl insertNutrient
      [("Portion Size", Value.str (portionString res.body))]
  else
    []

/-- The error-marker row `{"Food": query, "Error": "❌ Not found"}` that
`get_food_info` returns when the search yields no candidates. -/
def errRow (query : String) : Reading :=
  [("Food", Value.str query), ("Error", Value.str "❌ Not found")]

/-- `get_food_info` of `app.py`: search, return the error-marker row when
there are no candidates, otherwise one row per candidate whose detail fetch
produced a non-empty dict (`if data:`). -/
def get_food_info (P : Provider) (query : String) : List Reading :=
  let found := search_foods P.search query
  if found.isEmpty then
    [errRow query]
  else
    found.foldl
      (fun results m =>
        let data := extract_nutrients P.detail m.fdcId
        if data.isEmpty then results
        else results ++ [dictUpdate [("Food", Value.str m.description)] data])
      []

/-- Numeric contribution of a cell under pandas `sum(skipna=True)`: a number
counts, an absent key or a `None`/NaN cell contributes 0. -/
def cellNum : Option Value → ℚ
  | some (Value.num q) => q
  | _ => 0

/-- `nutrient in df.columns`: some row of the frame has the column key. -/
def colPresent (rows : List Reading) (label : String) : Bool :=
  rows.any (fun r => (List.lookup label r).isSome)

/-- `df[nutrient].sum(skipna=True)`: sum of the numeric cells of the
column, missing/NaN cells contributing 0. -/
def colSum (rows : List Reading) (label : String) : ℚ :=
  (rows.map (fun r => cellNum (List.lookup label r))).sum

/-- The four nutrient labels iterated by `summarize_nutrients`. -/
def SUMMARY_NUTRIENTS : List String :=
  ["Sodium (mg)", "Potassium (mg)", "Phosphorus (mg)", "Carbohydrates (g)"]

/-- `summarize_nutrients` of `app.py`: for each of the four labels, the
column sum when the column exists in the frame, 0 otherwise. -/
def summarize_nutrients (rows : List Reading) : List (String × ℚ) :=
  SUMMARY_NUTRIENTS.map
    (fun l => (l, if colPresent rows l then colSum rows l else 0))

/-- The emoji bucket of the Analyze handler (`app.py` lines 121–122):
`percent = (total / max_val) * 100 if max_val else 0` followed by
`"🟢" if percent < 60 else "🟡" if percent < 100 else "🔴"`. -/
def analyzeColor (total maxVal : ℚ) : String :=
  let percent := if maxVal ≠ 0 then total / maxVal * 100 else 0
  if percent < 60 then "🟢" else if percent < 100 then "🟡" else "🔴"

/-- The graduated classifier of the spec, read off the Analyze handler:
🟢 is "safe", 🟡 is "caution", 🔴 is "high". -/
def classify_graduated (v L : ℚ) : String :=
  if analyzeColor v L = "🟢" then "safe"
  else if analyzeColor v L = "🟡" then "caution"
  else "high"

/-- Modelled from the spec: the two-level diabetes screening classifier
`classify_binary` of §4.3 is described in the specification but absent from
`src/app.py`, which only displays the carbohydrate total with a recommended
range. Modelled from the spec words: declare "safe" when the carbohydrate
amount is below its cutoff AND the sugar amount is below its paired cutoff;
otherwise "not_safe". -/
def classify_binary (carbs sugars carbCutoff sugarCutoff : ℚ) : String :=
  if carbs < carbCutoff ∧ sugars < sugarCutoff then "safe" else "not_safe"

/-- Mocked provider for the "banana" scenario: one candidate
(id 1, "Banana, raw") and a detail body with nutrient 1008 → 89 and
nutrient 1003 → 1.1, no serving size. -/
def bananaProvider : Provider where
  search := fun _ => ⟨200, some [⟨1, "Banana, raw"⟩]⟩
  detail := fun _ =>
    ⟨200, ⟨[⟨some 1008, some 89⟩, ⟨some 1003, some 1.1⟩], none, none⟩⟩

/-- The row the "banana" scenario produces. -/
def bananaRow : Reading :=
  [("Food", Value.str "Banana, raw"),
   ("Portion Size", Value.str "100 g (default)"),
   ("Calories", Value.num 89),
   ("Protein (g)", Value.num 1.1)]

/-! ## Helper lemmas -/

/-- Over a positive limit, the emoji bucket of the Analyze handler is
determined by the position of `v` relative to `0.6 L` and `L`. -/
theorem analyzeColor_eq (v L : ℚ) (hL : 0 < L) :
    analyzeColor v L =
      if v < 0.6 * L then "🟢" else if v < L then "🟡" else "🔴" := by
  have h60 : v / L * 100 < 60 ↔ v < 0.6 * L := by
    rw [div_mul_eq_mul_div, div_lt_iff₀ hL]
    constructor <;> intro h <;> nlinarith
  have h100 : v / L * 100 < 100 ↔ v < L := by
    rw [div_mul_eq_mul_div, div_lt_iff₀ hL]
    constructor <;> intro h <;> nlinarith
  simp only [analyzeColor, if_pos hL.ne']
  by_cases h1 : v < 0.6 * L
  · rw [if_pos (h60.mpr h1), if_pos h1]
  · rw [if_neg (fun hc => h1 (h60.mp hc)), if_neg h1]
    by_cases h2 : v < L
    · rw [if_pos (h100.mpr h2), if_pos h2]
    · rw [if_neg (fun hc => h2 (h100.mp hc)), if_neg h2]

/-- Over a positive limit, `classify_graduated` is the three-way split at
`0.6 L` (inclusive into "caution") and `L` (inclusive into "high"). -/
theorem classify_graduated_eq (v L : ℚ) (hL : 0 < L) :
    classify_graduated v L =
      if v < 0.6 * L then "safe" else if v < L then "caution" else "high" := by
  unfold classify_graduated
  rw [analyzeColor_eq v L hL]
  by_cases h1 : v < 0.6 * L
  · rw [if_pos h1, if_pos h1]
    decide
  · rw [if_neg h1, if_neg h1]
    by_cases h2 : v < L
    · rw [if_pos h2, if_pos h2]
      decide
    · rw [if_neg h2, if_neg h2]
      decide

/-! ## Claims -/

/-- C1 (amended): for `L > 0`, `classify_graduated` returns exactly one of
safe/caution/high; `v < 0.6 L` is "safe", `0.6 L ≤ v < L` is "caution",
and `L ≤ v` is "high" — a value exactly equal to `0.6 L` is "caution",
while a value exactly equal to `L` is "high"; in particular
`classify_graduated 1800 3000 = "caution"`. -/
theorem classify_graduated_partition (v L : ℚ) (hL : 0 < L) :
    (classify_graduated v L = "safe" ∨ classify_graduated v L = "caution" ∨
      classify_graduated v L = "high") ∧
    (classify_graduated v L = "safe" ↔ v < 0.6 * L) ∧
    (classify_graduated v L = "caution" ↔ 0.6 * L ≤ v ∧ v < L) ∧
    (classify_graduated v L = "high" ↔ L ≤ v) ∧
    classify_graduated 1800 3000 = "caution" := by
  have hconc : classify_graduated 1800 3000 = "caution" := by
    rw [classify_graduated_eq 1800 3000 (by norm_num)]
    rw [if_neg (by norm_num), if_pos (by norm_num)]
  rw [classify_graduated_eq v L hL]
  by_cases h1 : v < 0.6 * L
  · rw [if_pos h1]
    refine ⟨Or.inl rfl, ⟨fun _ => h1, fun _ => rfl⟩, ?_, ?_, hconc⟩
    · constructor
      · intro he; exact absurd he (by decide)
      · intro hc; exact absurd h1 (not_lt.mpr hc.1)
    · constructor
      · intro he; exact absurd he (by decide)
      · intro hc; exact absurd h1 (not_lt.mpr (by linarith))
  · rw [if_neg h1]
    by_cases h2 : v < L
    · rw [if_pos h2]
      refine ⟨Or.inr (Or.inl rfl), ?_, ⟨fun _ => ⟨not_lt.mp h1, h2⟩, fun _ => rfl⟩,
        ?_, hconc⟩
      · constructor
        · intro he; exact absurd he (by decide)
        · intro hc; exact absurd hc (not_lt.mpr (not_lt.mp h1))
      · constructor
        · intro he; exact absurd he (by decide)
        · intro hc; exact absurd h2 (not_lt.mpr hc)
    · rw [if_neg h2]
      refine ⟨Or.inr (Or.inr rfl), ?_, ?_, ⟨fun _ => not_lt.mp h2, fun _ => rfl⟩,
        hconc⟩
      · constructor
        · intro he; exact absurd he (by decide)
        · intro hc; exact absurd hc (fun hc2 => h2 (by linarith))
      · constructor
        · intro he; exact absurd he (by decide)
        · intro hc; exact absurd hc.2 h2

/-- C1 witness: the partition theorem applied at `v = 1800`, `L = 3000`. -/
theorem classify_graduated_partition_witness :
    classify_graduated 1800 3000 = "caution" :=
  (classify_graduated_partition 1800 3000 (by norm_num)).2.2.2.2

/-- C1 counterexample: a value exactly equal to the limit is classified
"high" by the code, not "caution" as the claim states. -/
theorem classify_graduated_at_limit_counterexample :
    classify_graduated 3000 3000 = "high" ∧
    classify_graduated 3000 3000 ≠ "caution" := by
  have h : classify_graduated 3000 3000 = "high" := by
    rw [classify_graduated_eq 3000 3000 (by norm_num)]
    rw [if_neg (by norm_num), if_neg (by norm_num)]
  exact ⟨h, by rw [h]; decide⟩

/-- C2: the spec-modelled binary diabetes classifier returns "safe" iff the
carbohydrate amount is below its cutoff and the sugar amount is below its
paired cutoff, and "not_safe" otherwise; with carbohydrates 25, sugars 5
and item cutoffs (30, 10) it returns "safe", and with carbohydrates 35 it
returns "not_safe" regardless of the sugar value. -/
theorem classify_binary_spec (c s cc sc : ℚ) :
    (classify_binary c s cc sc = "safe" ↔ (c < cc ∧ s < sc)) ∧
    (¬ (c < cc ∧ s < sc) → classify_binary c s cc sc = "not_safe") ∧
    classify_binary 25 5 30 10 = "safe" ∧
    ∀ s2 : ℚ, classify_binary 35 s2 30 10 = "not_safe" := by
  refine ⟨?_, ?_, by decide, ?_⟩
  · unfold classify_binary
    by_cases h : c < cc ∧ s < sc
    · rw [if_pos h]
      exact ⟨fun _ => h, fun _ => rfl⟩
    · rw [if_neg h]
      constructor
      · intro he; exact absurd he (by decide)
      · intro hc; exact absurd hc h
  · intro h
    unfold classify_binary
    rw [if_neg h]
  · intro s2
    unfold classify_binary
    rw [if_neg]
    rintro ⟨h35, -⟩
    norm_num at h35

/-- C2 witness: the classifier theorem applied at the item-level scenario. -/
theorem classify_binary_spec_witness :
    classify_binary 25 5 30 10 = "safe" :=
  (classify_binary_spec 25 5 30 10).2.2.1

/-- C5: when the search endpoint reports no matches (absent or empty
`foods` field) or returns a non-2xx status — including HTTP 500 —
`search_foods` returns the empty candidate list (and, being a total
function, raises nothing). -/
theorem search_foods_failure_empty (provider : String → SearchResponse)
    (query : String) :
    (¬ (200 ≤ (provider query).status ∧ (provider query).status < 300) →
      search_foods provider query = []) ∧
    ((provider query).foods = none ∨ (provider query).foods = some [] →
      search_foods provider query = []) := by
  constructor
  · intro h
    have hne : (provider query).status ≠ 200 := by
      intro he
      exact h (by rw [he]; exact ⟨le_refl _, by norm_num⟩)
    have hb : ((provider query).status == 200) = false := by simpa using hne
    simp [search_foods, hb]
  · intro h
    rcases h with h | h <;> simp [search_foods, h]

/-- C5 witness: the failure theorem applied to a provider answering 500. -/
theorem search_foods_failure_empty_witness :
    search_foods (fun _ => ⟨500, none⟩) "banana" = [] :=
  (search_foods_failure_empty (fun _ => ⟨500, none⟩) "banana").1 (by decide)

/-- C6: on any non-200 status from the detail endpoint,
`extract_nutrients` returns the empty record (and, being a total function,
propagates no exception). -/
theorem extract_nutrients_non200 (dp : Nat → DetailResponse) (fdcId : Nat)
    (h : (dp fdcId).status ≠ 200) :
    extract_nutrients dp fdcId = [] := by
  have hb : ((dp fdcId).status == 200) = false := by simpa using h
  simp [extract_nutrients, hb]

/-- C6 witness: the non-200 theorem applied to a provider answering 500. -/
theorem extract_nutrients_non200_witness :
    extract_nutrients (fun _ => ⟨500, ⟨[], none, none⟩⟩) 7 = [] :=
  extract_nutrients_non200 (fun _ => ⟨500, ⟨[], none, none⟩⟩) 7 (by decide)

/-- Column presence in the frame is invariant under permuting the rows. -/
theorem colPresent_perm (rows rows2 : List Reading) (label : String)
    (h : rows.Perm rows2) : colPresent rows label = colPresent rows2 label := by
  unfold colPresent
  rw [Bool.eq_iff_iff, List.any_eq_true, List.any_eq_true]
  constructor
  · rintro ⟨r, hr, hp⟩
    exact ⟨r, h.mem_iff.mp hr, hp⟩
  · rintro ⟨r, hr, hp⟩
    exact ⟨r, h.mem_iff.mpr hr, hp⟩

/-- Looking up a label in the summary map built over a label list returns
the computed total for that label. -/
theorem lookup_summary_map (f : String → ℚ) (label : String) :
    ∀ ls : List String, label ∈ ls →
      List.lookup label (ls.map (fun l => (l, f l))) = some (f label) := by
  intro ls
  induction ls with
  | nil => intro hm; cases hm
  | cons a t ih =>
      intro hm
      by_cases hla : label = a
      · subst hla
        simp [List.lookup]
      · have : label ∈ t := by
          rcases List.mem_cons.mp hm with h | h
          · exact absurd h hla
          · exact h
        have hb : (label == a) = false := beq_eq_false_iff_ne.mpr hla
        simp [List.lookup, hb, ih this]

/-- C3: `summarize_nutrients` is order-independent — permuting the input
rows never changes the resulting totals mapping. -/
theorem summarize_nutrients_perm (rows rows2 : List Reading)
    (h : rows.Perm rows2) :
    summarize_nutrients rows = summarize_nutrients rows2 := by
  unfold summarize_nutrients
  refine List.map_congr_left (fun l _ => ?_)
  have hp : colPresent rows l = colPresent rows2 l := colPresent_perm _ _ _ h
  have hs : colSum rows l = colSum rows2 l :=
    (h.map (fun r => cellNum (List.lookup l r))).sum_eq
  rw [hp, hs]

/-- C3 witness: the permutation theorem applied to a two-row frame and its
transposition. -/
theorem summarize_nutrients_perm_witness :
    summarize_nutrients
      [[("Sodium (mg)", Value.num 3)], [("Potassium (mg)", Value.num 4)]] =
    summarize_nutrients
      [[("Potassium (mg)", Value.num 4)], [("Sodium (mg)", Value.num 3)]] :=
  summarize_nutrients_perm _ _ (List.Perm.swap _ _ _)

/-- C4: `summarize_nutrients` never fails: over the empty frame it returns
zero for every requested label; a label absent from every row totals zero;
and a row missing a label contributes zero to that label's total. -/
theorem summarize_nutrients_missing_zero (label : String) (rows : List Reading)
    (r : Reading) (hmem : label ∈ SUMMARY_NUTRIENTS) :
    summarize_nutrients [] = SUMMARY_NUTRIENTS.map (fun l => (l, (0 : ℚ))) ∧
    ((∀ s ∈ rows, List.lookup label s = none) →
      List.lookup label (summarize_nutrients rows) = some 0) ∧
    (List.lookup label r = none →
      List.lookup label (summarize_nutrients (r :: rows)) =
        List.lookup label (summarize_nutrients rows)) := by
  refine ⟨by decide, ?_, ?_⟩
  · intro habs
    have hcp : colPresent rows label = false := by
      simp only [colPresent, List.any_eq_false]
      intro x hx
      simp [habs x hx]
    unfold summarize_nutrients
    rw [lookup_summary_map _ _ _ hmem, hcp]
    simp
  · intro hnone
    unfold summarize_nutrients
    rw [lookup_summary_map _ _ _ hmem, lookup_summary_map _ _ _ hmem]
    have h1 : colPresent (r :: rows) label = colPresent rows label := by
      simp [colPresent, hnone]
    have h2 : colSum (r :: rows) label = colSum rows label := by
      simp [colSum, hnone, cellNum]
    rw [h1, h2]

/-- C4 witness: the missing-label theorem applied to a one-row frame whose
row has no "Sodium (mg)" key. -/
theorem summarize_nutrients_missing_zero_witness :
    List.lookup "Sodium (mg)"
      (summarize_nutrients [[("Food", Value.str "banana")]]) = some 0 :=
  (summarize_nutrients_missing_zero "Sodium (mg)"
    [[("Food", Value.str "banana")]] [] (by decide)).2.1 (by decide)

/-- Replacing the value stored under key `k` leaves lookups of any other
key unchanged. -/
theorem lookup_map_replace (k k0 : String) (v : Value) (h : k ≠ k0) :
    ∀ d : Reading,
      List.lookup k0 (d.map (fun p => if p.1 == k then (k, v) else p)) =
        List.lookup k0 d := by
  intro d
  induction d with
  | nil => rfl
  | cons a t ih =>
      obtain ⟨x, y⟩ := a
      by_cases hxk : x = k
      · subst hxk
        simp only [List.map_cons, beq_self_eq_true, if_true,
          List.lookup_cons]
        rw [beq_false_of_ne (Ne.symm h)]
        exact ih
      · rw [List.map_cons, if_neg (by simpa using hxk)]
        rw [List.lookup_cons, List.lookup_cons]
        cases hb : k0 == x
        · exact ih
        · rfl

/-- Appending a pair with key `k` leaves lookups of any other key
unchanged. -/
theorem lookup_append_single (k k0 : String) (v : Value) (h : k ≠ k0) :
    ∀ d : Reading, List.lookup k0 (d ++ [(k, v)]) = List.lookup k0 d := by
  intro d
  induction d with
  | nil =>
      simp only [List.nil_append, List.lookup_cons, List.lookup_nil]
      rw [beq_false_of_ne (Ne.symm h)]
  | cons a t ih =>
      obtain ⟨x, y⟩ := a
      simp only [List.cons_append, List.lookup_cons]
      cases hb : k0 == x
      · exact ih
      · rfl

/-- Python dict assignment under key `k` leaves lookups of any other key
unchanged. -/
theorem lookup_dictInsert_ne (d : Reading) (k k0 : String) (v : Value)
    (h : k ≠ k0) :
    List.lookup k0 (dictInsert d k v) = List.lookup k0 d := by
  unfold dictInsert
  by_cases hc : d.any (fun p => p.1 == k)
  · rw [if_pos hc]
    exact lookup_map_replace k k0 v h d
  · rw [if_neg hc]
    exact lookup_append_single k k0 v h d

/-- Every pair of a dict after an assignment is either an original pair or
the assigned one. -/
theorem mem_dictInsert (d : Reading) (k k0 : String) (v v0 : Value)
    (h : (k0, v0) ∈ dictInsert d k v) :
    (k0, v0) ∈ d ∨ (k0 = k ∧ v0 = v) := by
  unfold dictInsert at h
  by_cases hc : d.any (fun p => p.1 == k)
  · rw [if_pos hc] at h
    rcases List.mem_map.mp h with ⟨p, hp, he⟩
    by_cases hpk : p.1 = k
    · right
      rw [if_pos (by simpa using hpk)] at he
      injection he with h1 h2
      exact ⟨h1.symm, h2.symm⟩
    · left
      rw [if_neg (by simpa using hpk)] at he
      exact he ▸ hp
  · rw [if_neg hc] at h
    rcases List.mem_append.mp h with h | h
    · exact Or.inl h
    · right
      have he := List.mem_singleton.mp h
      injection he with h1 h2
      exact ⟨h1, h2⟩

/-- A canonical label from the nutrient table is never `"Portion Size"`. -/
theorem nutrientLabel_ne_portionKey (i : Nat) (s : String)
    (h : nutrientLabel i = some s) : s ≠ "Portion Size" := by
  unfold nutrientLabel at h
  cases hf : NUTRIENT_IDS.find? (fun p => p.1 == i) with
  | none => rw [hf] at h; cases h
  | some pr =>
      rw [hf] at h
      have hmem : pr ∈ NUTRIENT_IDS := List.mem_of_find?_eq_some hf
      have hs : pr.2 = s := by simpa using h
      subst hs
      fin_cases hmem <;> decide

/-- Folding the nutrient-insertion loop never touches the
`"Portion Size"` entry. -/
theorem lookup_portion_foldl (ns : List FoodNutrient) :
    ∀ init : Reading,
      List.lookup "Portion Size" (ns.foldl insertNutrient init) =
        List.lookup "Portion Size" init := by
  induction ns with
  | nil => intro init; rfl
  | cons n t ih =>
      intro init
      rw [List.foldl_cons, ih]
      cases hid : n.nutrientId with
      | none => simp [insertNutrient, hid]
      | some i =>
          cases hlab : nutrientLabel i with
          | none => simp [insertNutrient, hid, hlab]
          | some label =>
              simp only [insertNutrient, hid, hlab]
              exact lookup_dictInsert_ne init label "Portion Size" _
                (nutrientLabel_ne_portionKey i label hlab)

/-- Every pair produced by the nutrient-insertion loop is either from the
initial dict or comes verbatim from a table-matching provider entry. -/
theorem mem_foldl_insertNutrient (ns : List FoodNutrient) :
    ∀ (init : Reading) (k : String) (v : Value),
      (k, v) ∈ ns.foldl insertNutrient init →
      (k, v) ∈ init ∨
        ∃ n ∈ ns, ∃ i, n.nutrientId = some i ∧ nutrientLabel i = some k ∧
          v = Value.ofOpt n.amount := by
  induction ns with
  | nil => intro init k v h; exact Or.inl h
  | cons n t ih =>
      intro init k v h
      rw [List.foldl_cons] at h
      rcases ih (insertNutrient init n) k v h with h | ⟨m, hm, i, hi, hl, hv⟩
      · cases hid : n.nutrientId with
        | none =>
            simp only [insertNutrient, hid] at h
            exact Or.inl h
        | some i =>
            simp only [insertNutrient, hid] at h
            cases hlab : nutrientLabel i with
            | none =>
                rw [hlab] at h
                exact Or.inl h
            | some label =>
                rw [hlab] at h
                rcases mem_dictInsert init label k (Value.ofOpt n.amount) v h
                  with h | ⟨hk, hv⟩
                · exact Or.inl h
                · exact Or.inr ⟨n, List.mem_cons_self n t, i, hid,
                    hk ▸ hlab, hv⟩
      · exact Or.inr ⟨m, List.mem_cons_of_mem n hm, i, hi, hl, hv⟩

/-- When the provider supplies a truthy serving size and unit, the portion
descriptor is the formatted "serving size + unit" string. -/
theorem portionString_some (d : FoodDetail) (p : ℚ) (u : String)
    (hp : d.servingSize = some p) (hu : d.servingSizeUnit = some u)
    (hp0 : p ≠ 0) (hu0 : u ≠ "") :
    portionString d = toString p ++ " " ++ u := by
  unfold portionString
  rw [hp, hu]
  simp [hp0, hu0]

/-- When either serving field is absent or falsy, the portion descriptor is
the default string. -/
theorem portionString_default (d : FoodDetail)
    (h : d.servingSize = none ∨ d.servingSizeUnit = none ∨
      d.servingSize = some 0 ∨ d.servingSizeUnit = some "") :
    portionString d = "100 g (default)" := by
  unfold portionString
  cases hs : d.servingSize with
  | none =>
      cases hu : d.servingSizeUnit with
      | none => rfl
      | some u2 => rfl
  | some p2 =>
      cases hu : d.servingSizeUnit with
      | none => rfl
      | some u2 =>
          have hne : ¬ (p2 ≠ 0 ∧ u2 ≠ "") := by
            rw [hs, hu] at h
            rcases h with h | h | h | h
            · exact absurd h (by simp)
            · exact absurd h (by simp)
            · injection h with h2
              exact fun hc => hc.1 h2
            · injection h with h2
              exact fun hc => hc.2 h2
          exact if_neg hne

/-- C7 (amended): on a successful detail response, extraction keeps only
provider entries whose nutrient id is in `NUTRIENT_IDS`, stores each under
its canonical label with the amount verbatim, and sets the portion
descriptor to the formatted "serving size + unit" string when the provider
supplies a nonzero serving size and nonempty unit, defaulting to the string
"100 g (default)" when either field is absent or falsy. -/
theorem extract_nutrients_policy (dp : Nat → DetailResponse) (fdcId : Nat)
    (h200 : (dp fdcId).status = 200) :
    (∀ k v, (k, v) ∈ extract_nutrients dp fdcId →
      k = "Portion Size" ∨
        ∃ n ∈ (dp fdcId).body.foodNutrients, ∃ i, n.nutrientId = some i ∧
          nutrientLabel i = some k ∧ v = Value.ofOpt n.amount) ∧
    (∀ p u, (dp fdcId).body.servingSize = some p →
      (dp fdcId).body.servingSizeUnit = some u → p ≠ 0 → u ≠ "" →
      List.lookup "Portion Size" (extract_nutrients dp fdcId) =
        some (Value.str (toString p ++ " " ++ u))) ∧
    ((dp fdcId).body.servingSize = none ∨
      (dp fdcId).body.servingSizeUnit = none ∨
      (dp fdcId).body.servingSize = some 0 ∨
      (dp fdcId).body.servingSizeUnit = some "" →
      List.lookup "Portion Size" (extract_nutrients dp fdcId) =
        some (Value.str "100 g (default)")) := by
  have hb : ((dp fdcId).status == 200) = true := by simpa using h200
  have hE : extract_nutrients dp fdcId =
      (dp fdcId).body.foodNutrients.foldl insertNutrient
        [("Portion Size", Value.str (portionString (dp fdcId).body))] := by
    simp [extract_nutrients, hb]
  refine ⟨?_, ?_, ?_⟩
  · intro k v hkv
    rw [hE] at hkv
    rcases mem_foldl_insertNutrient _ _ _ _ hkv with hi | hrest
    · left
      exact (Prod.ext_iff.mp (List.mem_singleton.mp hi)).1
    · exact Or.inr hrest
  · intro p u hp hu hp0 hu0
    rw [hE, lookup_portion_foldl, List.lookup_cons_self,
      portionString_some _ p u hp hu hp0 hu0]
  · intro h
    rw [hE, lookup_portion_foldl, List.lookup_cons_self,
      portionString_default _ h]

/-- C7 witness: the policy theorem applied to a provider supplying serving
size 240 and unit "ml". -/
theorem extract_nutrients_policy_witness :
    List.lookup "Portion Size"
      (extract_nutrients (fun _ => ⟨200, ⟨[], some 240, some "ml"⟩⟩) 1) =
      some (Value.str (toString (240 : ℚ) ++ " " ++ "ml")) :=
  (extract_nutrients_policy (fun _ => ⟨200, ⟨[], some 240, some "ml"⟩⟩) 1
    rfl).2.1 240 "ml" rfl rfl (by norm_num) (by decide)

/-- C7 counterexample: with no serving fields the portion descriptor is the
string "100 g (default)", not the string "100 g" the claim states. -/
theorem extract_nutrients_default_counterexample :
    List.lookup "Portion Size"
      (extract_nutrients (fun _ => ⟨200, ⟨[], none, none⟩⟩) 1) =
      some (Value.str "100 g (default)") ∧
    List.lookup "Portion Size"
      (extract_nutrients (fun _ => ⟨200, ⟨[], none, none⟩⟩) 1) ≠
      some (Value.str "100 g") := by
  exact ⟨rfl, by decide⟩

/-- C8: on the mocked "banana" scenario the resolver produces exactly one
row, with Food "Banana, raw", Calories 89 and Protein (g) 1.1. -/
theorem get_food_info_banana :
    get_food_info bananaProvider "banana" = [bananaRow] ∧
    List.lookup "Food" bananaRow = some (Value.str "Banana, raw") ∧
    List.lookup "Calories" bananaRow = some (Value.num 89) ∧
    List.lookup "Protein (g)" bananaRow = some (Value.num 1.1) :=
  ⟨rfl, rfl, rfl, rfl⟩

/-- A search that yields no candidates makes `get_food_info` return exactly
the one error-marker row. -/
theorem get_food_info_of_search_empty (P : Provider) (query : String)
    (h : search_foods P.search query = []) :
    get_food_info P query = [errRow query] := by
  simp [get_food_info, h]

/-- The error-marker row has no nutrient column, so prepending it to a
frame leaves every summarized total unchanged. -/
theorem summarize_cons_errRow (q : String) (rows : List Reading) :
    summarize_nutrients (errRow q :: rows) = summarize_nutrients rows := by
  unfold summarize_nutrients
  refine List.map_congr_left (fun l hl => ?_)
  have hnone : List.lookup l (errRow q) = none := by
    fin_cases hl <;> rfl
  have h1 : colPresent (errRow q :: rows) l = colPresent rows l := by
    simp [colPresent, hnone]
  have h2 : colSum (errRow q :: rows) l = colSum rows l := by
    simp [colSum, hnone, cellNum]
  rw [h1, h2]

/-- C9: when the provider returns no candidates, `get_food_info` records
exactly one entry pairing the raw query with the error marker and no
nutrient values; that entry contributes nothing to the summarized totals;
the embedding is total, so nothing is raised. -/
theorem get_food_info_not_found (P : Provider) (query : String)
    (rows : List Reading) (h : search_foods P.search query = []) :
    get_food_info P query = [errRow query] ∧
    summarize_nutrients (errRow query :: rows) = summarize_nutrients rows :=
  ⟨get_food_info_of_search_empty P query h, summarize_cons_errRow query rows⟩

/-- C9 witness: the not-found theorem applied to a provider answering 500
on search. -/
theorem get_food_info_not_found_witness :
    get_food_info ⟨fun _ => ⟨500, none⟩, fun _ => ⟨500, ⟨[], none, none⟩⟩⟩
        "kiwi" = [errRow "kiwi"] ∧
    summarize_nutrients (errRow "kiwi" :: []) = summarize_nutrients [] :=
  get_food_info_not_found
    ⟨fun _ => ⟨500, none⟩, fun _ => ⟨500, ⟨[], none, none⟩⟩⟩ "kiwi" [] rfl

/-- C10: when the search returns one candidate whose detail fetch fails
(empty record), `get_food_info` produces no entry at all — not even an
error-marker entry — unlike an empty search, which yields exactly the one
error-marker row. -/
theorem get_food_info_drops_failed_detail (P : Provider) (q : String)
    (c : Candidate) (h1 : search_foods P.search q = [c])
    (h2 : extract_nutrients P.detail c.fdcId = []) :
    get_food_info P q = [] ∧
    (∀ q2, search_foods P.search q2 = [] →
      get_food_info P q2 = [errRow q2]) := by
  constructor
  · simp [get_food_info, h1, h2]
  · intro q2 hq2
    exact get_food_info_of_search_empty P q2 hq2

/-- C10 witness: the dropped-candidate theorem applied to a provider whose
search succeeds but whose detail endpoint answers 500. -/
theorem get_food_info_drops_failed_detail_witness :
    get_food_info
      ⟨fun _ => ⟨200, some [⟨3, "x"⟩]⟩, fun _ => ⟨500, ⟨[], none, none⟩⟩⟩
      "rice" = [] :=
  (get_food_info_drops_failed_detail
    ⟨fun _ => ⟨200, some [⟨3, "x"⟩]⟩, fun _ => ⟨500, ⟨[], none, none⟩⟩⟩
    "rice" ⟨3, "x"⟩ rfl rfl).1

end DietCKD
